import Mathlib

/-!
Shallow embedding of the interactive XMPP console client `xc.py`.

The client keeps a roster (`roster.items`, a dict from JID to a roster item
carrying a display name and a subscription state, iterated in insertion
order) and one piece of session state, `next_recipient` (the "sticky last
recipient", an optional display name).  Each submitted input line is either
a `/`-command or a chat line; chat lines are split on the first `": "` into
recipient name and body, resolved against the roster by display name with a
fallback to the sticky recipient, and sent over the transport.  We model:

* `jid_for_name` — the resolver lambda at xc.py:167
  (`next((jid for jid, item in roster.items.items() if item.name == r), None)`);
* `splitLine` — Python's `line.split(": ", 1)` restricted to the
  "unpacks into two parts" outcome (`none` models the `ValueError` branch);
* `resolveAndSend` / `handle_message_line` — the non-command branch of the
  interactive loop, xc.py:156-181, parameterised by whether the transport
  send (`stream.send_and_wait_for_sent`) succeeds;
* `roster_rows` / `handle_roster_command` — the `/roster` branch,
  xc.py:110-114;
* `exit_code` — the process exit status as determined by xc.py:28 (config
  failure, `sys.exit(1)`), xc.py:185-186 (connect failure: print and return
  normally) and the `__main__` harness at xc.py:188-201 (clean quit / EOF /
  interrupt all end with status 0).

The roster dict is embedded as an insertion-ordered association list.
-/

/-- One aioxmpp roster item as used by xc.py: a display name and a
subscription state (the only two fields the client reads). -/
structure RosterItem where
  name : String
  subscription : String
  deriving DecidableEq, Repr

/-- `roster.items`: insertion-ordered association list from bare-JID string
to roster item, modelling the Python dict's iteration order. -/
abbrev Roster := List (String × RosterItem)

/-- The resolver lambda at xc.py:167:
`jid_for_name = lambda r: next((jid for jid, item in roster.items.items() if item.name == r), None)` —
the first JID (in iteration order) whose item's display name equals `r`. -/
def jid_for_name (roster : Roster) (r : String) : Option String :=
  match roster with
  | [] => none
  | (jid, item) :: rest => if item.name = r then some jid else jid_for_name rest r

/-- Split a character list at the first occurrence of the two-character
separator `": "`; `none` when the separator does not occur. -/
def splitColonSpace : List Char → Option (List Char × List Char)
  | [] => none
  | c :: rest =>
    if c = ':' ∧ rest.head? = some ' ' then some ([], rest.tail)
    else (splitColonSpace rest).map (fun p => (c :: p.1, p.2))

/-- `line.split(": ", 1)` at xc.py:159, as used in
`recipient, message = line.split(": ", 1)`: `some (recipient, message)` when
the separator occurs, `none` for the `ValueError` branch (no separator,
including the empty line). -/
def splitLine (line : String) : Option (String × String) :=
  (splitColonSpace line.toList).map (fun p => (⟨p.1⟩, ⟨p.2⟩))

/-- One line written by the client above the prompt while handling a line. -/
inductive Output where
  /-- One row of `/roster` output: display name, JID, subscription (xc.py:114). -/
  | rosterRow : String → String → String → Output
  /-- `"recipient: message"` hint, printed when a separator-free line arrives
  with no sticky recipient (xc.py:165). -/
  | noRecipientHint : Output
  /-- `"unknown recipient: NAME"` (xc.py:174). -/
  | unknownRecipient : String → Output
  /-- `"exception sending message: ..."` (xc.py:181). -/
  | sendException : Output
  /-- `"exception handling command: ..."` (xc.py:155). -/
  | commandException : Output
  deriving DecidableEq, Repr

/-- A message handed to `stream.send_and_wait_for_sent` (xc.py:176-178):
destination JID (the `to=` argument of `aioxmpp.Message`) and body. -/
structure SendEvent where
  to_jid : String
  body : String
  deriving DecidableEq, Repr

/-- Result of handling one input line: lines written above the prompt,
messages actually sent, and the resulting sticky recipient. -/
structure StepResult where
  outputs : List Output
  sent : List SendEvent
  next_recipient : Option String
  deriving DecidableEq, Repr

/-- xc.py:167-181: resolve `recipient` by display name; on failure, if a
sticky recipient exists and differs from the typed name, retry with the
sticky recipient (rebinding `recipient`); report `unknown recipient` with
the (possibly rebound) name if both fail; otherwise send `msg` and, only
when the send succeeds, set the sticky recipient to the resolved name.
`sendOk` abstracts whether `stream.send_and_wait_for_sent` raises. -/
def resolveAndSend (roster : Roster) (nr : Option String)
    (recipient msg : String) (sendOk : Bool) : StepResult :=
  let j0 := jid_for_name roster recipient
  let rj : String × Option String :=
    match j0, nr with
    | none, some lr => if recipient ≠ lr then (lr, jid_for_name roster lr) else (recipient, none)
    | _, _ => (recipient, j0)
  match rj.2 with
  | none => ⟨[.unknownRecipient rj.1], [], nr⟩
  | some j =>
    if sendOk then ⟨[], [⟨j, msg⟩], some rj.1⟩
    else ⟨[.sendException], [], nr⟩

/-- The non-command branch of the interactive loop, xc.py:156-181: split the
line on the first `": "`; on `ValueError` fall back to the sticky recipient
with the whole line as body, or print the `recipient: message` hint when
there is none; then resolve and send. -/
def handle_message_line (roster : Roster) (nr : Option String)
    (line : String) (sendOk : Bool) : StepResult :=
  match splitLine line with
  | some (recipient, message) => resolveAndSend roster nr recipient message sendOk
  | none =>
    match nr with
    | some r => resolveAndSend roster nr r line sendOk
    | none => ⟨[.noRecipientHint], [], none⟩

/-- xc.py:111: the `/roster` rows —
`[(item.name, str(jid), item.subscription) for jid, item in roster.items.items() if jid != my_jid]`. -/
def roster_rows (roster : Roster) (my_jid : String) : List (String × String × String) :=
  (roster.filter (fun p => p.1 ≠ my_jid)).map (fun p => (p.2.name, p.1, p.2.subscription))

/-- The `/roster` branch, xc.py:110-114.  `args` is bound by the dispatcher
(`command, *args = line[1:].split(" ")`, xc.py:109) but never read in this
branch.  When the row list is empty, `rows[0]` at xc.py:112 raises
`IndexError`, caught at xc.py:154 as `exception handling command`. -/
def handle_roster_command (args : List String) (roster : Roster) (my_jid : String) :
    List Output :=
  let rows := roster_rows roster my_jid
  match rows with
  | [] => [Output.commandException]
  | _ => rows.map (fun r => Output.rosterRow r.1 r.2.1 r.2.2)

/-- How the process's top level terminated. -/
inductive SessionEnd where
  | quit
  | eof
  | interrupt
  deriving DecidableEq, Repr

/-- Startup/shutdown outcome of one run of the client process. -/
inductive StartupOutcome where
  /-- Configuration file unreadable, malformed, or missing `"jid"`
  (xc.py:21-28): the message is printed and `sys.exit(1)` is called. -/
  | configError (msg : String)
  /-- `client.connected()` raised (xc.py:100, caught at xc.py:185-186):
  `Failed to connect` is printed and `xmpp_client` returns normally. -/
  | connectFailed (msg : String)
  /-- The interactive loop ended (`/quit`, EOF or interrupt) and the
  process fell off the end of the script (xc.py:141-142, 104-105, 194-201). -/
  | sessionEnded (how : SessionEnd)
  deriving DecidableEq, Repr

/-- The process exit status for each outcome: `sys.exit(1)` on configuration
failure; in every other case the script runs to completion (the `__main__`
harness catches `KeyboardInterrupt`/`EOFError` and even generic exceptions,
xc.py:194-201) and the process exits with status 0. -/
def exit_code : StartupOutcome → Nat
  | .configError _ => 1
  | .connectFailed _ => 0
  | .sessionEnded _ => 0

/-!  Helper lemmas about the embedded operations.  -/

/-- When `splitColonSpace` succeeds, the input is the two parts joined by
the `": "` separator. -/
theorem splitColonSpace_append (l a b : List Char)
    (h : splitColonSpace l = some (a, b)) : l = a ++ ':' :: ' ' :: b := by
  induction l generalizing a b with
  | nil => cases h
  | cons c rest ih =>
    rw [splitColonSpace] at h
    by_cases hc : c = ':' ∧ rest.head? = some ' '
    · rw [if_pos hc] at h
      injection h with h'
      injection h' with ha hb
      subst ha
      subst hb
      rcases hc with ⟨hc1, hc2⟩
      subst hc1
      cases rest with
      | nil => cases hc2
      | cons r rs =>
        injection hc2 with hr
        subst hr
        rfl
    · rw [if_neg hc] at h
      rcases Option.map_eq_some'.1 h with ⟨p, hp, heq⟩
      cases heq
      simp [ih p.1 p.2 hp]

/-- When `splitLine` succeeds, the line is recipient, `": "`, body. -/
theorem splitLine_append (line a b : String) (h : splitLine line = some (a, b)) :
    line = a ++ ": " ++ b := by
  unfold splitLine at h
  rcases Option.map_eq_some'.1 h with ⟨p, hp, heq⟩
  have hl := splitColonSpace_append line.toList p.1 p.2 hp
  injection heq with h1 h2
  apply String.ext
  subst h1
  subst h2
  simpa using hl

/-- Exhaustive shape of `resolveAndSend`: it either reports one
`unknown recipient` line, reports one send exception (send failed), or
sends exactly one message (send succeeded) — never more than one output
or more than one send, and the sticky recipient is untouched except in
the successful-send case. -/
theorem resolveAndSend_shape (roster : Roster) (nr : Option String)
    (recipient msg : String) (sendOk : Bool) :
    (∃ name, resolveAndSend roster nr recipient msg sendOk =
        ⟨[Output.unknownRecipient name], [], nr⟩) ∨
      (sendOk = false ∧ resolveAndSend roster nr recipient msg sendOk =
        ⟨[Output.sendException], [], nr⟩) ∨
      (sendOk = true ∧ ∃ j name, resolveAndSend roster nr recipient msg sendOk =
        ⟨[], [⟨j, msg⟩], some name⟩) := by
  unfold resolveAndSend
  cases hj0 : jid_for_name roster recipient with
  | some j =>
    cases nr <;> cases sendOk <;> simp
  | none =>
    cases nr with
    | none => simp
    | some lr =>
      by_cases hrl : recipient = lr
      · simp [hrl]
      · cases hlr : jid_for_name roster lr with
        | none => simp [hrl, hlr]
        | some j => cases sendOk <;> simp [hrl, hlr]

-- scratch checks
example : splitLine "" = none := by rfl
example : splitLine "hello" = none := by rfl
example : splitLine "Alice: hi" = some ("Alice", "hi") := by rfl
example : splitLine "a: b: c" = some ("a", "b: c") := by rfl
example : splitLine ":: x" = some (":", "x") := by rfl
example : jid_for_name [("a@x", ⟨"A", "both"⟩)] "A" = some "a@x" := by rfl
example :
    handle_message_line [("bob@x", ⟨"Bob", "both"⟩)] (some "Bob") "" true =
      ⟨[], [⟨"bob@x", ""⟩], some "Bob"⟩ := by rfl
example :
    handle_message_line [] (some "Bob") "Alice: hi" true =
      ⟨[.unknownRecipient "Bob"], [], some "Bob"⟩ := by rfl

/-!  Claim theorems.  -/

/-- C1 counterexample: a completely empty input line is NOT a no-op.  With
the sticky recipient set to `Bob` (present in the roster), the empty line
sends an empty-bodied message to Bob; with no sticky recipient, it prints
the `recipient: message` hint.  Either way the claimed
no-output/no-send behaviour is refuted. -/
theorem c1_empty_line_counterexample :
    (handle_message_line [("bob@x", ⟨"Bob", "both"⟩)] (some "Bob") "" true).sent =
        [⟨"bob@x", ""⟩] ∧
      (handle_message_line [] none "" true).outputs = [Output.noRecipientHint] := by
  exact ⟨rfl, rfl⟩

/-- C1 amended: an empty input line is handled exactly like any
separator-free line.  If the sticky recipient is set and resolves, an
empty-bodied message is sent to it (and the sticky recipient is
unchanged); if the sticky recipient is unset, the `recipient: message`
hint is printed and nothing is sent or changed. -/
theorem c1_empty_line_amended (roster : Roster) (lr j : String) (sendOk : Bool)
    (h : jid_for_name roster lr = some j) :
    handle_message_line roster (some lr) "" true = ⟨[], [⟨j, ""⟩], some lr⟩ ∧
      handle_message_line roster none "" sendOk =
        ⟨[Output.noRecipientHint], [], none⟩ := by
  constructor
  · show resolveAndSend roster (some lr) lr "" true = _
    unfold resolveAndSend
    simp [h]
  · rfl

/-- C1 amended, witness at a concrete roster and sticky recipient. -/
theorem c1_empty_line_amended_witness :
    handle_message_line [("bob@x", ⟨"Bob", "both"⟩)] (some "Bob") "" true =
        ⟨[], [⟨"bob@x", ""⟩], some "Bob"⟩ ∧
      handle_message_line [("bob@x", ⟨"Bob", "both"⟩)] none "" true =
        ⟨[Output.noRecipientHint], [], none⟩ :=
  c1_empty_line_amended [("bob@x", ⟨"Bob", "both"⟩)] "Bob" "bob@x" true (by rfl)

/-- C2: the sticky recipient is updated only by a successful send.  If the
handling of a non-command line sends nothing (resolution failed) or the
transport send fails, the sticky recipient keeps its prior value, nothing
is sent, and exactly one error line is printed. -/
theorem c2_sticky_updated_only_on_successful_send (roster : Roster)
    (nr : Option String) (line : String) (sendOk : Bool)
    (h : (handle_message_line roster nr line sendOk).sent = [] ∨ sendOk = false) :
    (handle_message_line roster nr line sendOk).next_recipient = nr ∧
      (handle_message_line roster nr line sendOk).sent = [] ∧
      (handle_message_line roster nr line sendOk).outputs.length = 1 := by
  have key : ∀ recipient msg,
      ((resolveAndSend roster nr recipient msg sendOk).sent = [] ∨ sendOk = false) →
      (resolveAndSend roster nr recipient msg sendOk).next_recipient = nr ∧
        (resolveAndSend roster nr recipient msg sendOk).sent = [] ∧
        (resolveAndSend roster nr recipient msg sendOk).outputs.length = 1 := by
    intro recipient msg hfail
    rcases resolveAndSend_shape roster nr recipient msg sendOk with
      ⟨name, he⟩ | ⟨hf, he⟩ | ⟨ht, j, name, he⟩
    · rw [he]
      exact ⟨rfl, rfl, rfl⟩
    · rw [he]
      exact ⟨rfl, rfl, rfl⟩
    · rw [he] at hfail
      rcases hfail with hfail | hfail
      · cases hfail
      · rw [hfail] at ht
        cases ht
  unfold handle_message_line at h ⊢
  cases hs : splitLine line with
  | some p =>
    rcases p with ⟨r, m⟩
    rw [hs] at h
    exact key r m h
  | none =>
    rw [hs] at h
    cases nr with
    | none => exact ⟨rfl, rfl, rfl⟩
    | some r => exact key r line h

/-- C2 witness: with a transport send failure at a concrete state, the
sticky recipient survives and one error line is printed. -/
theorem c2_sticky_updated_only_on_successful_send_witness :
    (handle_message_line [("bob@x", ⟨"Bob", "both"⟩)] (some "Alice") "Bob: hi" false).next_recipient =
        some "Alice" ∧
      (handle_message_line [("bob@x", ⟨"Bob", "both"⟩)] (some "Alice") "Bob: hi" false).sent = [] ∧
      (handle_message_line [("bob@x", ⟨"Bob", "both"⟩)] (some "Alice") "Bob: hi" false).outputs.length = 1 :=
  c2_sticky_updated_only_on_successful_send [("bob@x", ⟨"Bob", "both"⟩)]
    (some "Alice") "Bob: hi" false (Or.inr rfl)

/-- C3 counterexample: input `Alice: hi` with no contact named `Alice`,
sticky recipient `Bob` also unresolvable — the error line reports `Bob`
(the sticky recipient the code rebound `recipient` to), not the typed
name `Alice`. -/
theorem c3_unknown_recipient_counterexample :
    handle_message_line [] (some "Bob") "Alice: hi" true =
        ⟨[Output.unknownRecipient "Bob"], [], some "Bob"⟩ ∧
      ("Bob" : String) ≠ "Alice" := by
  exact ⟨rfl, by decide⟩

/-- C3 amended: when a `NAME: MESSAGE` line has an unresolvable `NAME`,
the fallback retries with the sticky recipient (when one exists and
differs from `NAME`); if the last-tried name is also unresolvable the
error reports that last-tried name — the sticky recipient when the
fallback was attempted, the typed name otherwise — and nothing is sent
and no state changes. -/
theorem c3_unknown_recipient_reports_last_tried (roster : Roster)
    (nr : Option String) (line name msg tried : String) (sendOk : Bool)
    (h0 : splitLine line = some (name, msg))
    (h1 : jid_for_name roster name = none)
    (h2 : tried = (match nr with
      | some lr => if name = lr then name else lr
      | none => name))
    (h3 : jid_for_name roster tried = none) :
    handle_message_line roster nr line sendOk =
      ⟨[Output.unknownRecipient tried], [], nr⟩ := by
  unfold handle_message_line
  rw [h0]
  unfold resolveAndSend
  cases nr with
  | none =>
    simp only at h2
    subst h2
    simp [h1]
  | some lr =>
    simp only at h2
    by_cases hrl : name = lr
    · rw [if_pos hrl] at h2
      subst hrl
      subst h2
      simp [h1]
    · rw [if_neg hrl] at h2
      subst h2
      simp [h1, hrl, h3]

/-- C3 amended, witness: `Alice: hi` with empty roster and sticky
recipient `Bob` yields `unknown recipient: Bob` and no send. -/
theorem c3_unknown_recipient_reports_last_tried_witness :
    handle_message_line [] (some "Bob") "Alice: hi" true =
      ⟨[Output.unknownRecipient "Bob"], [], some "Bob"⟩ :=
  c3_unknown_recipient_reports_last_tried [] (some "Bob") "Alice: hi" "Alice" "hi"
    "Bob" true (by rfl) (by rfl) (by decide) (by rfl)

/-- C4: a separator-free input line is addressed to the sticky recipient
when one is set — the whole line is the body, and when the sticky
recipient resolves and the send succeeds, exactly that message goes out —
and with no sticky recipient the `recipient: message` hint is printed,
nothing is sent, and no state changes. -/
theorem c4_no_separator_uses_sticky_recipient (roster : Roster) (line : String)
    (sendOk : Bool) (h1 : line ≠ "") (h2 : splitLine line = none) :
    (∀ a, handle_message_line roster (some a) line sendOk =
        resolveAndSend roster (some a) a line sendOk) ∧
      (∀ a j, jid_for_name roster a = some j →
        handle_message_line roster (some a) line true = ⟨[], [⟨j, line⟩], some a⟩) ∧
      handle_message_line roster none line sendOk =
        ⟨[Output.noRecipientHint], [], none⟩ := by
  refine ⟨fun a => ?_, fun a j hj => ?_, ?_⟩
  · unfold handle_message_line
    rw [h2]
  · unfold handle_message_line
    rw [h2]
    unfold resolveAndSend
    simp [hj]
  · unfold handle_message_line
    rw [h2]

/-- C4 witness: with sticky recipient `A` (resolving to `a@x`) the line
`hello` is sent to `a@x` with body `hello`; with no sticky recipient the
hint is printed. -/
theorem c4_no_separator_uses_sticky_recipient_witness :
    handle_message_line [("a@x", ⟨"A", "both"⟩)] (some "A") "hello" true =
        ⟨[], [⟨"a@x", "hello"⟩], some "A"⟩ ∧
      handle_message_line [("a@x", ⟨"A", "both"⟩)] none "hello" true =
        ⟨[Output.noRecipientHint], [], none⟩ :=
  ⟨(c4_no_separator_uses_sticky_recipient [("a@x", ⟨"A", "both"⟩)] "hello" true
      (by decide) (by rfl)).2.1 "A" "a@x" (by rfl),
    (c4_no_separator_uses_sticky_recipient [("a@x", ⟨"A", "both"⟩)] "hello" true
      (by decide) (by rfl)).2.2⟩

/-- C5 counterexample: `/roster` performs no presence filtering and no raw
dump — its arguments are not even read.  With a single contact for which
no presence information exists anywhere in the listing computation (the
code never consults presence), the no-argument form lists the contact,
and the `all` and `raw` forms produce the identical output. -/
theorem c5_roster_filter_counterexample :
    handle_roster_command [] [("carol@x", ⟨"Carol", "both"⟩)] "me@x" =
        [Output.rosterRow "Carol" "carol@x" "both"] ∧
      handle_roster_command ["all"] [("carol@x", ⟨"Carol", "both"⟩)] "me@x" =
        handle_roster_command [] [("carol@x", ⟨"Carol", "both"⟩)] "me@x" ∧
      handle_roster_command ["raw"] [("carol@x", ⟨"Carol", "both"⟩)] "me@x" =
        handle_roster_command [] [("carol@x", ⟨"Carol", "both"⟩)] "me@x" := by
  exact ⟨rfl, rfl, rfl⟩

/-- C5 amended: `/roster` ignores its arguments entirely and always lists
every contact other than the local user — name, address, subscription —
regardless of any presence state; there is no offline filter and no
separate raw dump. -/
theorem c5_roster_lists_every_contact (args : List String) (roster : Roster)
    (my_jid jid : String) (item : RosterItem)
    (h1 : (jid, item) ∈ roster) (h2 : jid ≠ my_jid) :
    handle_roster_command args roster my_jid =
        handle_roster_command [] roster my_jid ∧
      Output.rosterRow item.name jid item.subscription ∈
        handle_roster_command args roster my_jid := by
  constructor
  · rfl
  · have hrow : (item.name, jid, item.subscription) ∈ roster_rows roster my_jid := by
      unfold roster_rows
      exact List.mem_map.2 ⟨(jid, item), List.mem_filter.2 ⟨h1, by simpa using h2⟩, rfl⟩
    unfold handle_roster_command
    cases hr : roster_rows roster my_jid with
    | nil =>
      rw [hr] at hrow
      cases hrow
    | cons x xs =>
      rw [hr] at hrow
      simp only
      exact List.mem_map.2 ⟨_, hrow, rfl⟩

/-- C5 amended, witness at a concrete roster and argument list. -/
theorem c5_roster_lists_every_contact_witness :
    handle_roster_command ["all"] [("carol@x", ⟨"Carol", "both"⟩)] "me@x" =
        handle_roster_command [] [("carol@x", ⟨"Carol", "both"⟩)] "me@x" ∧
      Output.rosterRow "Carol" "carol@x" "both" ∈
        handle_roster_command ["all"] [("carol@x", ⟨"Carol", "both"⟩)] "me@x" :=
  c5_roster_lists_every_contact ["all"] [("carol@x", ⟨"Carol", "both"⟩)] "me@x"
    "carol@x" ⟨"Carol", "both"⟩ (by simp) (by decide)

/-- C6 counterexample: with a roster entry for the local user's own
address `me@x` named `Me`, the `/roster` rows indeed omit it, but name
resolution returns the local address, and a chat line addressed to `Me`
actually sends a message to `me@x` — the local address IS a resolution
target. -/
theorem c6_self_resolution_counterexample :
    roster_rows [("me@x", ⟨"Me", "none"⟩)] "me@x" = [] ∧
      jid_for_name [("me@x", ⟨"Me", "none"⟩)] "Me" = some "me@x" ∧
      (handle_message_line [("me@x", ⟨"Me", "none"⟩)] none "Me: hi" true).sent =
        [⟨"me@x", "hi"⟩] := by
  exact ⟨rfl, rfl, rfl⟩

/-- C6 amended: the `/roster` listing never prints a row whose address is
the local user's own address (xc.py:111 filters it), but name resolution
(`jid_for_name`, xc.py:167) performs no such exclusion. -/
theorem c6_roster_listing_excludes_self (args : List String) (roster : Roster)
    (my_jid name jid sub : String)
    (h : Output.rosterRow name jid sub ∈ handle_roster_command args roster my_jid) :
    jid ≠ my_jid := by
  unfold handle_roster_command at h
  cases hr : roster_rows roster my_jid with
  | nil =>
    rw [hr] at h
    simp at h
  | cons x xs =>
    rw [hr] at h
    simp only at h
    rcases List.mem_map.1 h with ⟨r, hxr, heq⟩
    injection heq with e1 e2 e3
    subst e2
    have hmem : r ∈ roster_rows roster my_jid := by
      rw [hr]
      exact hxr
    unfold roster_rows at hmem
    rcases List.mem_map.1 hmem with ⟨p, hp, hpe⟩
    have hf := (List.mem_filter.1 hp).2
    rw [← hpe] at *
    simpa using hf

/-- C6 amended, witness: a row listed for a normal contact has a non-local
address. -/
theorem c6_roster_listing_excludes_self_witness :
    ("carol@x" : String) ≠ "me@x" :=
  c6_roster_listing_excludes_self [] [("carol@x", ⟨"Carol", "both"⟩)] "me@x"
    "Carol" "carol@x" "both" (by simp [handle_roster_command, roster_rows])

/-- C7 counterexample: when the transport fails to establish a connection,
`xmpp_client` prints `Failed to connect` and returns normally
(xc.py:185-186), so the process exits with status 0, not non-zero. -/
theorem c7_connect_failure_exit_code_counterexample :
    exit_code (StartupOutcome.connectFailed "connection refused") = 0 := by
  exact rfl

/-- C7 amended: the exit code is 0 on clean quit, end-of-input, interrupt,
AND on a failed connection attempt (which only prints an error); it is
non-zero exactly when startup fails on missing or malformed
configuration (`sys.exit(1)`). -/
theorem c7_exit_code_zero_iff_not_config_error (o : StartupOutcome) :
    exit_code o = 0 ↔ ∀ m, o ≠ StartupOutcome.configError m := by
  cases o with
  | configError m =>
    simp only [exit_code]
    constructor
    · intro h
      exact absurd h (by decide)
    · intro h
      exact absurd rfl (h m)
  | connectFailed m => simp [exit_code]
  | sessionEnded e => simp [exit_code]

/-- C8: display-name resolution is the first match in roster iteration
(insertion) order — when two entries share the display name, the earlier
one wins, regardless of what follows. -/
theorem c8_first_match_wins (pre : Roster) (j1 : String) (i1 : RosterItem)
    (mid : Roster) (j2 : String) (i2 : RosterItem) (post : Roster) (n : String)
    (h1 : i1.name = n) (h2 : i2.name = n)
    (hpre : ∀ p ∈ pre, (p : String × RosterItem).2.name ≠ n) :
    jid_for_name (pre ++ (j1, i1) :: mid ++ (j2, i2) :: post) n = some j1 := by
  induction pre with
  | nil => simp [jid_for_name, h1]
  | cons p ps ih =>
    rcases p with ⟨j, i⟩
    have hne : i.name ≠ n := hpre (j, i) (List.mem_cons_self _ _)
    simp only [List.cons_append, jid_for_name]
    rw [if_neg hne]
    exact ih (fun q hq => hpre q (List.mem_cons_of_mem _ hq))

/-- C8 witness: two contacts both named `Bob`; resolution returns the
first-inserted one. -/
theorem c8_first_match_wins_witness :
    jid_for_name [("x@x", ⟨"X", "none"⟩), ("a@x", ⟨"Bob", "both"⟩),
        ("b@x", ⟨"Bob", "to"⟩)] "Bob" = some "a@x" :=
  c8_first_match_wins [("x@x", ⟨"X", "none"⟩)] "a@x" ⟨"Bob", "both"⟩ [] "b@x"
    ⟨"Bob", "to"⟩ [] "Bob" rfl rfl (by decide)

/-- C10: when a `NAME: MESSAGE` line falls back to the sticky recipient
(typed name unresolvable, sticky recipient set, different, and
resolvable), the message actually sent carries only the text after the
first `": "` — the `NAME` prefix is silently dropped from the body. -/
theorem c10_fallback_drops_typed_name (roster : Roster)
    (line name msg lr j : String)
    (h0 : splitLine line = some (name, msg))
    (h1 : jid_for_name roster name = none)
    (h2 : name ≠ lr)
    (h3 : jid_for_name roster lr = some j) :
    line = name ++ ": " ++ msg ∧
      handle_message_line roster (some lr) line true =
        ⟨[], [⟨j, msg⟩], some lr⟩ := by
  constructor
  · exact splitLine_append line name msg h0
  · unfold handle_message_line
    rw [h0]
    unfold resolveAndSend
    simp [h1, h2, h3]

/-- C10 witness: `Alice: hi` with no contact `Alice` and sticky recipient
`Bob` sends body `hi` to Bob's address — the `Alice` prefix is dropped. -/
theorem c10_fallback_drops_typed_name_witness :
    ("Alice: hi" : String) = "Alice" ++ ": " ++ "hi" ∧
      handle_message_line [("bob@x", ⟨"Bob", "both"⟩)] (some "Bob") "Alice: hi" true =
        ⟨[], [⟨"bob@x", "hi"⟩], some "Bob"⟩ :=
  c10_fallback_drops_typed_name [("bob@x", ⟨"Bob", "both"⟩)] "Alice: hi"
    "Alice" "hi" "Bob" "bob@x" (by rfl) (by rfl) (by decide) (by rfl)
